import Mathlib

/-!
Verification of the rollback-netcode demo (`src/main.rs`) against its
specification.  The Rust source is shallowly embedded: `f32` values are
represented by their 32-bit patterns as `Nat` (the code under scrutiny only
copies them, never computes with them), `u8` fields are `Nat`, and the Bevy
ECS systems become pure functions over explicit state.
-/

namespace Stack

/-- The key codes consulted by the `input` system (`KeyCode::Up`, `W`, `Down`,
`S`, `Left`, `A`, `Right`, `D`, `Space`, `Return`). -/
inductive KeyCode
  | up | down | left | right
  | w | a | s | d
  | space | enter
  deriving DecidableEq, Repr

/-- The local control-device state read by the `input` system: the set of
currently pressed keys (as a list; order and duplication are representation
noise) and the cursor's world-space position when the cursor is inside the
window (the result of `window.cursor_position()` piped through
`camera.viewport_to_world(..).map(|ray| ray.origin.truncate())`; the two
`f32` coordinates are carried as bit patterns). -/
structure DeviceState where
  pressed : List KeyCode
  cursor : Option (Nat × Nat)

/-- Embedding of `struct GameInput` (`#[repr(C)]`): `mouse : Vec2` is two
`f32` coordinates carried as bit patterns, `has_mouse : u8`, `keys : u8`, and
`_padding : [u8; 6]` carried as a 6-tuple of bytes. -/
structure GameInput where
  mouse : Nat × Nat
  has_mouse : Nat
  keys : Nat
  padding : Nat × Nat × Nat × Nat × Nat × Nat
  deriving DecidableEq, Repr

/-- `#[derive(Default)]` for `GameInput`: every field zeroed
(`Vec2::ZERO`, `0u8`, `0u8`, `[0u8; 6]`). -/
def GameInput.default : GameInput :=
  { mouse := (0, 0), has_mouse := 0, keys := 0, padding := (0, 0, 0, 0, 0, 0) }

/-- `const INPUT_UP: u8 = 1 << 0;` -/
def INPUT_UP : Nat := 1 <<< 0
/-- `const INPUT_DOWN: u8 = 1 << 1;` -/
def INPUT_DOWN : Nat := 1 <<< 1
/-- `const INPUT_LEFT: u8 = 1 << 2;` -/
def INPUT_LEFT : Nat := 1 <<< 2
/-- `const INPUT_RIGHT: u8 = 1 << 3;` -/
def INPUT_RIGHT : Nat := 1 <<< 3
/-- `const INPUT_FIRE: u8 = 1 << 4;` -/
def INPUT_FIRE : Nat := 1 <<< 4

/-- `keys.any_pressed([...])`: true when any of the listed key codes is in
the pressed set. -/
def anyPressed (ds : DeviceState) (ks : List KeyCode) : Bool :=
  ks.any (fun k => decide (k ∈ ds.pressed))

/-- Embedding of the `input` system (`fn input`): start from
`GameInput { ..default() }`, copy the cursor's world position and set
`has_mouse = 1` when a cursor position is available, then or each button's
bit into `keys` when one of that button's keys is pressed, in source order. -/
def input (ds : DeviceState) : GameInput :=
  let i := GameInput.default
  let i := match ds.cursor with
    | some pos => { i with mouse := pos, has_mouse := 1 }
    | none => i
  let i := if anyPressed ds [.up, .w] then { i with keys := i.keys ||| INPUT_UP } else i
  let i := if anyPressed ds [.down, .s] then { i with keys := i.keys ||| INPUT_DOWN } else i
  let i := if anyPressed ds [.left, .a] then { i with keys := i.keys ||| INPUT_LEFT } else i
  let i := if anyPressed ds [.right, .d] then { i with keys := i.keys ||| INPUT_RIGHT } else i
  if anyPressed ds [.space, .enter] then { i with keys := i.keys ||| INPUT_FIRE } else i

/-- Little-endian byte decomposition of a 32-bit pattern. -/
def le32 (n : Nat) : List Nat :=
  [n % 256, n / 256 % 256, n / 65536 % 256, n / 16777216 % 256]

/-- The `#[repr(C)]` byte image of a `GameInput` value, as used by the `Pod`
cast for network transmission: `mouse.x` (4 bytes), `mouse.y` (4 bytes),
`has_mouse` (1 byte), `keys` (1 byte), `_padding` (6 bytes). -/
def GameInput.encodedBytes (g : GameInput) : List Nat :=
  le32 g.mouse.1 ++ le32 g.mouse.2 ++ [g.has_mouse % 256, g.keys % 256] ++
    [g.padding.1, g.padding.2.1, g.padding.2.2.1,
     g.padding.2.2.2.1, g.padding.2.2.2.2.1, g.padding.2.2.2.2.2]

/-- Modelled from the spec: the resolved input for a player falls back to the
all-zero/default `GameInput` when no prior confirmed-or-predicted input
exists (frame-hold prediction's base case; the lookup itself lives in the
ggrs library, outside this repository's sources). -/
def resolveInput (prior : Option GameInput) : GameInput :=
  prior.getD GameInput.default

/-! ### Session bootstrap (`fn wait_for_players`)

Peer identifiers (matchbox `PeerId`s, unique per peer) are embedded as `Nat`.
The matchbox socket state that `wait_for_players` touches is the discovered
remote-peer list and the single WebRTC channel, which can be taken at most
once. -/

/-- The matchbox socket state used by `wait_for_players`: the local peer's
own identifier, the remote peers currently known to the rendezvous (in
discovery order), and whether `take_channel(0)` has already succeeded. -/
structure Socket where
  ownId : Nat
  remotes : List Nat
  channelTaken : Bool
  deriving DecidableEq, Repr

/-- Insert an identifier into an ascending list, keeping it ascending. -/
def insertId (a : Nat) : List Nat → List Nat
  | [] => [a]
  | b :: bs => if a ≤ b then a :: b :: bs else b :: insertId a bs

/-- Insertion sort on peer identifiers (ascending). -/
def sortIds : List Nat → List Nat
  | [] => []
  | a :: rest => insertId a (sortIds rest)

/-- Modelled from the spec: `socket.players()` enumerates the session's
peers — the local peer together with all discovered remotes — "in a stable,
deterministic order (ascending peer identifier — ties are impossible since
identifiers are unique)".  The enumeration lives in the matchbox library,
outside this repository's sources. -/
def players (s : Socket) : List Nat :=
  sortIds (s.ownId :: s.remotes)

/-- `let num_players = 2;` -/
def num_players : Nat := 2

/-- Modelled from the spec: the ggrs `SessionBuilder::add_player` loop
(`for (i, player) in players.into_iter().enumerate()`): each peer in turn is
registered under handle `i`; registration fails on a "duplicate or invalid
handle" — the enumeration makes handles distinct, so the failing case is a
handle outside `0..num_players`.  Returns the bindings peer ↦ handle, or
`none` when some registration fails. -/
def addPlayers (numPlayers : Nat) : List Nat → Nat → Option (List (Nat × Nat))
  | [], _ => some []
  | p :: ps, i =>
    if i < numPlayers then
      match addPlayers numPlayers ps (i + 1) with
      | some rest => some ((p, i) :: rest)
      | none => none
    else
      none

/-- A started GGRS session, as far as the claims are concerned: its
player-handle bindings (peer identifier ↦ handle). -/
structure SessionRes where
  bindings : List (Nat × Nat)
  deriving DecidableEq, Repr

/-- The state touched by one `wait_for_players` tick: the matchbox socket
resource and the (optional) started session resource. -/
structure World where
  socket : Socket
  session : Option SessionRes
  deriving DecidableEq, Repr

/-- How a `wait_for_players` tick ends.  The system itself returns `()`;
this outcome records which control path it took.  `errAlreadyStarted` and
`errSessionBuild` are never produced by the code — they are the error
reports the specification calls for, included so that the specification's
error taxonomy is expressible over the embedding. -/
inductive TickOutcome
  | waiting
  | started
  | skipped
  | panicked (msg : String)
  | errAlreadyStarted
  | errSessionBuild
  deriving DecidableEq, Repr

/-- Embedding of one `wait_for_players` tick.  `discovered` is the remote
peer list the rendezvous reports this tick (`socket.update_peers()` replaces
the socket's view with it).  Source order: refresh peers; return early while
`players.len() < num_players`; build the session adding each player under
its enumeration index, with `.expect("failed to add player")` panicking on
failure; then `take_channel(0)` — on `Ok` start the session (the
`start_p2p_session` expect cannot fail: exactly `num_players` handles were
registered) and insert the session resource, on `Err` do nothing. -/
def wait_for_players (discovered : List Nat) (w : World) : World × TickOutcome :=
  let socket := { w.socket with remotes := discovered }
  let w := { w with socket := socket }
  let ps := players socket
  if ps.length < num_players then
    (w, .waiting)
  else
    match addPlayers num_players ps 0 with
    | none => (w, .panicked "failed to add player")
    | some bindings =>
      if socket.channelTaken then
        (w, .skipped)
      else
        ({ w with socket := { socket with channelTaken := true },
                  session := some ⟨bindings⟩ }, .started)

/-- Run `wait_for_players` once per tick over a sequence of rendezvous
views, as the `Update` schedule does. -/
def runTicks (w : World) : List (List Nat) → World
  | [] => w
  | d :: ds => runTicks (wait_for_players d w).1 ds

/-! ### Simulation step (`fn move_players`) -/

/-- `Vec3` as three `f32` bit patterns. -/
structure Vec3 where
  x : Nat
  y : Nat
  z : Nat
  deriving DecidableEq, Repr

/-- `Quat` as four `f32` bit patterns. -/
structure Quat where
  qx : Nat
  qy : Nat
  qz : Nat
  qw : Nat
  deriving DecidableEq, Repr

/-- Bevy `Transform`: translation, rotation, scale. -/
structure Transform where
  translation : Vec3
  rotation : Quat
  scale : Vec3
  deriving DecidableEq, Repr

/-- `struct Player { handle: usize }` -/
structure Player where
  handle : Nat
  deriving DecidableEq, Repr

/-- The per-entity body of the `move_players` loop.  `ins` gives the
resolved `GameInput` per player handle (`inputs[player.handle]`).  The
source computes a `direction` vector and a `_move_delta` from the key bits,
but the line applying it (`transform.translation += move_delta`) is
commented out, so that computation is dead and is omitted here.  The only
live effect: when `input.has_mouse == 1`, `translation.x` and
`translation.y` are set to the input's mouse coordinates. -/
def movePlayer (ins : Nat → GameInput) (t : Transform) (p : Player) : Transform :=
  let inp := ins p.handle
  if inp.has_mouse = 1 then
    { t with translation := { t.translation with x := inp.mouse.1, y := inp.mouse.2 } }
  else
    t

/-- Embedding of the `move_players` system: the query yields each player
entity's `(Transform, Player)` pair; each entity's transform is updated
independently from its own player's resolved input. -/
def move_players (ins : Nat → GameInput) (es : List (Transform × Player)) :
    List (Transform × Player) :=
  es.map (fun ep => (movePlayer ins ep.1 ep.2, ep.2))

/-! ## Theorems -/

/-- `anyPressed` depends only on which keys are members of the pressed set,
not on the list representation. -/
theorem anyPressed_congr {s1 s2 : DeviceState}
    (h : ∀ k, k ∈ s1.pressed ↔ k ∈ s2.pressed) :
    ∀ ks, anyPressed s1 ks = anyPressed s2 ks := by
  intro ks
  induction ks with
  | nil => rfl
  | cons k ks ih =>
    simp only [anyPressed, List.any_cons] at ih ⊢
    rw [ih, decide_eq_decide.mpr (h k)]

/-- Claim C5: input encoding is a total function of the logical control
device state, and two encodings of the same logical state (same pressed-key
membership, same cursor) are bit-identical `GameInput` records — same mouse
bit patterns, cursor flag, key bitset and padding bytes. -/
theorem input_deterministic (s1 s2 : DeviceState)
    (hk : ∀ k, k ∈ s1.pressed ↔ k ∈ s2.pressed) (hc : s1.cursor = s2.cursor) :
    input s1 = input s2 := by
  unfold input
  rw [hc]
  simp only [anyPressed_congr hk]

/-- Witness for `input_deterministic` at a concrete pair of device states
with distinct list representations of the same pressed set. -/
theorem input_deterministic_witness :
    input ⟨[.up, .w, .up], some (3, 4)⟩ = input ⟨[.w, .up], some (3, 4)⟩ :=
  input_deterministic _ _ (by intro k; cases k <;> decide) rfl

/-- Claim C6: the encoded byte image of every `GameInput` value has the
fixed size 16 = 4 + 4 + 1 + 1 + 6: two 4-byte coordinates, the 1-byte
cursor flag, the 1-byte key bitset and 6 padding bytes. -/
theorem encoded_size_fixed (g : GameInput) :
    g.encodedBytes.length = 16 ∧
    (le32 g.mouse.1).length = 4 ∧ (le32 g.mouse.2).length = 4 := by
  refine ⟨?_, rfl, rfl⟩
  simp [GameInput.encodedBytes, le32]

/-- The key bitset produced by `input`, as an or of one contribution per
button. -/
theorem input_keys_val (ds : DeviceState) :
    (input ds).keys =
      ((if anyPressed ds [.up, .w] then INPUT_UP else 0) |||
       (if anyPressed ds [.down, .s] then INPUT_DOWN else 0) |||
       (if anyPressed ds [.left, .a] then INPUT_LEFT else 0) |||
       (if anyPressed ds [.right, .d] then INPUT_RIGHT else 0) |||
       (if anyPressed ds [.space, .enter] then INPUT_FIRE else 0)) := by
  unfold input
  cases hc : ds.cursor <;>
  cases h1 : anyPressed ds [.up, .w] <;>
  cases h2 : anyPressed ds [.down, .s] <;>
  cases h3 : anyPressed ds [.left, .a] <;>
  cases h4 : anyPressed ds [.right, .d] <;>
  cases h5 : anyPressed ds [.space, .enter] <;>
  simp [GameInput.default, INPUT_UP, INPUT_DOWN, INPUT_LEFT, INPUT_RIGHT, INPUT_FIRE]

/-- `anyPressed` over a two-key list is membership of either key. -/
theorem anyPressed_pair (ds : DeviceState) (k1 k2 : KeyCode) :
    anyPressed ds [k1, k2] = true ↔ (k1 ∈ ds.pressed ∨ k2 ∈ ds.pressed) := by
  simp [anyPressed]

/-- Claim C7: each of the five buttons owns a distinct bit of the key
bitset (up = bit 0, down = bit 1, left = bit 2, right = bit 3,
fire = bit 4), and the encoder sets a button's bit exactly when one of that
button's keys is pressed, independently of the other buttons. -/
theorem input_keys_buttons (ds : DeviceState) :
    ((input ds).keys.testBit 0 = true ↔ (KeyCode.up ∈ ds.pressed ∨ KeyCode.w ∈ ds.pressed)) ∧
    ((input ds).keys.testBit 1 = true ↔ (KeyCode.down ∈ ds.pressed ∨ KeyCode.s ∈ ds.pressed)) ∧
    ((input ds).keys.testBit 2 = true ↔ (KeyCode.left ∈ ds.pressed ∨ KeyCode.a ∈ ds.pressed)) ∧
    ((input ds).keys.testBit 3 = true ↔ (KeyCode.right ∈ ds.pressed ∨ KeyCode.d ∈ ds.pressed)) ∧
    ((input ds).keys.testBit 4 = true ↔ (KeyCode.space ∈ ds.pressed ∨ KeyCode.enter ∈ ds.pressed)) := by
  rw [← anyPressed_pair ds KeyCode.up KeyCode.w,
      ← anyPressed_pair ds KeyCode.down KeyCode.s,
      ← anyPressed_pair ds KeyCode.left KeyCode.a,
      ← anyPressed_pair ds KeyCode.right KeyCode.d,
      ← anyPressed_pair ds KeyCode.space KeyCode.enter]
  simp only [input_keys_val]
  cases h1 : anyPressed ds [.up, .w] <;>
  cases h2 : anyPressed ds [.down, .s] <;>
  cases h3 : anyPressed ds [.left, .a] <;>
  cases h4 : anyPressed ds [.right, .d] <;>
  cases h5 : anyPressed ds [.space, .enter] <;>
  decide

/-- Claim C8: the default `GameInput` — the frame-hold fallback when no
prior confirmed-or-predicted input exists — is the all-zero record: mouse
`(0, 0)`, cursor flag `0`, empty key bitset, zero padding; its byte image
is sixteen zero bytes. -/
theorem default_input_all_zero :
    resolveInput none = GameInput.default ∧
    GameInput.default.mouse = (0, 0) ∧
    GameInput.default.has_mouse = 0 ∧
    GameInput.default.keys = 0 ∧
    GameInput.default.padding = (0, 0, 0, 0, 0, 0) ∧
    GameInput.default.encodedBytes = List.replicate 16 0 := by
  exact ⟨rfl, rfl, rfl, rfl, rfl, by decide⟩

/-- Inserting preserves length. -/
theorem insertId_length (a : Nat) (l : List Nat) :
    (insertId a l).length = l.length + 1 := by
  induction l with
  | nil => rfl
  | cons b bs ih => by_cases h : a ≤ b <;> simp [insertId, h, ih]

/-- Sorting preserves length. -/
theorem sortIds_length (l : List Nat) : (sortIds l).length = l.length := by
  induction l with
  | nil => rfl
  | cons a rest ih => simp [sortIds, insertId_length, ih]

/-- Registering exactly the two required players succeeds, binding them to
handles 0 and 1 in list order. -/
theorem addPlayers_pair (a b : Nat) :
    addPlayers 2 [a, b] 0 = some [(a, 0), (b, 1)] := rfl

/-- Registering more peers than `num_players` fails: some peer's
enumeration index is an invalid handle. -/
theorem addPlayers_overflow : ∀ (l : List Nat) (i : Nat), l ≠ [] →
    num_players < l.length + i → addPlayers num_players l i = none := by
  intro l
  induction l with
  | nil => intro i h _; exact absurd rfl h
  | cons p ps ih =>
    intro i _ hlen
    unfold addPlayers
    by_cases hi : i < num_players
    · have hne : ps ≠ [] := by
        intro he
        subst he
        simp [num_players] at hlen hi
        omega
      have hlen' : num_players < ps.length + (i + 1) := by
        simp at hlen
        omega
      have := ih (i + 1) hne hlen'
      simp [hi, this]
    · simp [hi]

/-- A below-threshold tick only refreshes the peer list and reports
`waiting`. -/
theorem wait_for_players_waiting (w : World) (d : List Nat)
    (h : (players { w.socket with remotes := d }).length < num_players) :
    wait_for_players d w =
      ({ w with socket := { w.socket with remotes := d } }, .waiting) := by
  unfold wait_for_players
  simp [h]

/-- Iterating below-threshold ticks never creates a session, never consumes
the channel, and never changes the local identifier. -/
theorem runTicks_waiting : ∀ (ds : List (List Nat)) (w : World),
    (∀ d ∈ ds, (players { w.socket with remotes := d }).length < num_players) →
    (runTicks w ds).session = w.session ∧
    (runTicks w ds).socket.channelTaken = w.socket.channelTaken ∧
    (runTicks w ds).socket.ownId = w.socket.ownId := by
  intro ds
  induction ds with
  | nil => intro w _; exact ⟨rfl, rfl, rfl⟩
  | cons d ds ih =>
    intro w h
    have hd := h d (by simp)
    rw [runTicks, wait_for_players_waiting w d hd]
    have hrest := ih { w with socket := { w.socket with remotes := d } } (by
      intro x hx
      simpa using h x (by simp [hx]))
    simpa using hrest

/-- Claim C4: while the discovered peer count is below the required player
count, a bootstrap tick has no effect on session state — no session is
created, the channel is not consumed, no bindings are made — and the
`WaitingForPlayers` condition persists through arbitrarily many such ticks
(no timeout). -/
theorem waiting_no_side_effects (w : World) (d : List Nat) (ds : List (List Nat))
    (h1 : (players { w.socket with remotes := d }).length < num_players)
    (h2 : ∀ x ∈ ds, (players { w.socket with remotes := x }).length < num_players) :
    (wait_for_players d w).2 = TickOutcome.waiting ∧
    (wait_for_players d w).1.session = w.session ∧
    (wait_for_players d w).1.socket.channelTaken = w.socket.channelTaken ∧
    (runTicks w ds).session = w.session ∧
    (runTicks w ds).socket.channelTaken = w.socket.channelTaken := by
  have hr := runTicks_waiting ds w h2
  rw [wait_for_players_waiting w d h1]
  exact ⟨rfl, rfl, rfl, hr.1, hr.2.1⟩

/-- Witness for `waiting_no_side_effects`: a lone local peer waits through
three empty rendezvous views with no session, no consumed channel. -/
theorem waiting_no_side_effects_witness :
    (wait_for_players [] ⟨⟨7, [], false⟩, none⟩).2 = TickOutcome.waiting ∧
    (wait_for_players [] ⟨⟨7, [], false⟩, none⟩).1.session = none ∧
    (wait_for_players [] ⟨⟨7, [], false⟩, none⟩).1.socket.channelTaken = false ∧
    (runTicks ⟨⟨7, [], false⟩, none⟩ [[], []]).session = none ∧
    (runTicks ⟨⟨7, [], false⟩, none⟩ [[], []]).socket.channelTaken = false :=
  waiting_no_side_effects ⟨⟨7, [], false⟩, none⟩ [] [[], []] (by decide)
    (by intro x hx; simp at hx; subst hx; decide)

/-- Claim C1: when the discovered peer count reaches the required count 2,
handles are assigned in ascending peer-identifier order, independent of
discovery order: for peers `{A, B}` with `A < B`, `A` gets handle 0 and `B`
gets handle 1, whether the local peer is `A` or `B`. -/
theorem bootstrap_handles_ascending (A B own rem : Nat) (hAB : A < B)
    (hcase : (own = A ∧ rem = B) ∨ (own = B ∧ rem = A)) :
    wait_for_players [rem] ⟨⟨own, [], false⟩, none⟩ =
      (⟨⟨own, [rem], true⟩, some ⟨[(A, 0), (B, 1)]⟩⟩, TickOutcome.started) := by
  have hplayers : players ⟨own, [rem], false⟩ = [A, B] := by
    rcases hcase with ⟨h1, h2⟩ | ⟨h1, h2⟩ <;> subst h1 <;> subst h2
    · simp [players, sortIds, insertId, le_of_lt hAB]
    · simp [players, sortIds, insertId, not_le.mpr hAB]
  unfold wait_for_players
  simp [hplayers, num_players, addPlayers_pair]

/-- Witness for `bootstrap_handles_ascending`: peer 2 is local (discovered
"first"), peer 1 arrives later, yet peer 1 gets handle 0. -/
theorem bootstrap_handles_ascending_witness :
    wait_for_players [1] ⟨⟨2, [], false⟩, none⟩ =
      (⟨⟨2, [1], true⟩, some ⟨[(1, 0), (2, 1)]⟩⟩, TickOutcome.started) :=
  bootstrap_handles_ascending 1 2 2 1 (by decide) (Or.inr ⟨rfl, rfl⟩)

/-- Counterexample to claim C2 as stated: finalizing a second time with the
required player count present takes the silent `skipped` path — the code
reports no `AlreadyStarted` error. -/
theorem double_finalize_counterexample :
    (wait_for_players [1] ⟨⟨0, [1], true⟩, some ⟨[(0, 0), (1, 1)]⟩⟩).2 =
      TickOutcome.skipped ∧
    TickOutcome.skipped ≠ TickOutcome.errAlreadyStarted := by
  decide

/-- Claim C2 (amended): a second finalization attempt with the required
player count present silently does nothing — `take_channel` fails, the
channel is not re-consumed, the session's bindings are unchanged — but no
explicit `AlreadyStarted` error is surfaced. -/
theorem double_finalize_silent (own : Nat) (rs d : List Nat) (sess : Option SessionRes)
    (hlen : (players ⟨own, d, true⟩).length = num_players) :
    wait_for_players d ⟨⟨own, rs, true⟩, sess⟩ =
      (⟨⟨own, d, true⟩, sess⟩, TickOutcome.skipped) := by
  unfold wait_for_players
  have hnotlt : ¬ (players ⟨own, d, true⟩).length < num_players := by omega
  obtain ⟨a, b, hab⟩ := List.length_eq_two.mp hlen
  simp [hnotlt, hab, num_players, addPlayers_pair]

/-- Witness for `double_finalize_silent` at a concrete already-running
session. -/
theorem double_finalize_silent_witness :
    wait_for_players [3] ⟨⟨2, [3], true⟩, some ⟨[(2, 0), (3, 1)]⟩⟩ =
      (⟨⟨2, [3], true⟩, some ⟨[(2, 0), (3, 1)]⟩⟩, TickOutcome.skipped) :=
  double_finalize_silent 2 [3] [3] (some ⟨[(2, 0), (3, 1)]⟩) (by decide)

/-- Counterexample to claim C3 as stated: with a third peer discovered,
peer registration fails and the bootstrap step panics ("failed to add
player") instead of reporting a `SessionBuildError`; no session exists at
the panic. -/
theorem registration_failure_counterexample :
    (wait_for_players [1, 2] ⟨⟨0, [], false⟩, none⟩).2 =
      TickOutcome.panicked "failed to add player" ∧
    (wait_for_players [1, 2] ⟨⟨0, [], false⟩, none⟩).2 ≠ TickOutcome.errSessionBuild ∧
    (wait_for_players [1, 2] ⟨⟨0, [], false⟩, none⟩).1.session = none := by
  decide

/-- Claim C3 (amended): when peer registration during session construction
fails (more peers than the required player count, so an enumeration index
is an invalid handle), the bootstrap step panics with "failed to add
player" — terminating rather than reporting `SessionBuildError` — and no
state transition happens: the session resource and the channel are
untouched. -/
theorem registration_failure_panics (own : Nat) (rs d : List Nat)
    (sess : Option SessionRes) (ct : Bool)
    (hlen : num_players < (players ⟨own, d, ct⟩).length) :
    wait_for_players d ⟨⟨own, rs, ct⟩, sess⟩ =
      (⟨⟨own, d, ct⟩, sess⟩, TickOutcome.panicked "failed to add player") := by
  unfold wait_for_players
  have hne : players ⟨own, d, ct⟩ ≠ [] := by
    intro h
    rw [h] at hlen
    simp [num_players] at hlen
  have hnone := addPlayers_overflow (players ⟨own, d, ct⟩) 0 hne (by omega)
  have hnotlt : ¬ (players ⟨own, d, ct⟩).length < num_players := by omega
  simp [hnotlt, hnone]

/-- Witness for `registration_failure_panics` at a three-peer rendezvous
view. -/
theorem registration_failure_panics_witness :
    wait_for_players [3, 1] ⟨⟨2, [], false⟩, none⟩ =
      (⟨⟨2, [3, 1], false⟩, none⟩, TickOutcome.panicked "failed to add player") :=
  registration_failure_panics 2 [] [3, 1] none false (by decide)

/-- Claim C9: the simulation step is deterministic and side-effect-free
outside the player transforms and the resolved inputs: any two runs from
the same transforms and inputs agree; runs from query iterations in
different orders produce the same multiset of entities; and each entity's
result is a function of that entity and the inputs alone. -/
theorem move_players_deterministic (ins : Nat → GameInput)
    (es es2 rs rs2 : List (Transform × Player))
    (h1 : rs = move_players ins es) (h2 : rs2 = move_players ins es2)
    (hperm : es.Perm es2) :
    rs.Perm rs2 ∧ (es = es2 → rs = rs2) ∧
    (∀ i : Nat, rs[i]? = (es[i]?).map (fun ep => (movePlayer ins ep.1 ep.2, ep.2))) := by
  subst h1
  subst h2
  refine ⟨hperm.map _, fun h => by rw [h], fun i => ?_⟩
  simp [move_players]

/-- Witness for `move_players_deterministic`: two player entities iterated
in either order. -/
theorem move_players_deterministic_witness :
    (move_players (fun _ => GameInput.default)
        [(⟨⟨0, 0, 0⟩, ⟨0, 0, 0, 0⟩, ⟨1, 1, 1⟩⟩, ⟨0⟩),
         (⟨⟨5, 6, 7⟩, ⟨0, 0, 0, 0⟩, ⟨1, 1, 1⟩⟩, ⟨1⟩)]).Perm
      (move_players (fun _ => GameInput.default)
        [(⟨⟨5, 6, 7⟩, ⟨0, 0, 0, 0⟩, ⟨1, 1, 1⟩⟩, ⟨1⟩),
         (⟨⟨0, 0, 0⟩, ⟨0, 0, 0, 0⟩, ⟨1, 1, 1⟩⟩, ⟨0⟩)]) :=
  (move_players_deterministic (fun _ => GameInput.default) _ _ _ _ rfl rfl
    (List.Perm.swap _ _ _)).1

/-- Claim C10: the key bitset has no effect on the simulation step; a
player's transform changes only when its input's cursor flag is 1, and then
exactly translation.x and translation.y are set to the mouse coordinates;
translation.z, rotation and scale are always unchanged, and with the flag
not equal to 1 the whole transform is unchanged. -/
theorem move_players_mouse_only (ins : Nat → GameInput) (t : Transform) (p : Player) :
    (∀ k, movePlayer (fun hnd => { ins hnd with keys := k }) t p = movePlayer ins t p) ∧
    ((ins p.handle).has_mouse = 1 →
      movePlayer ins t p =
        { t with translation :=
            { t.translation with x := (ins p.handle).mouse.1,
                                 y := (ins p.handle).mouse.2 } }) ∧
    ((ins p.handle).has_mouse ≠ 1 → movePlayer ins t p = t) ∧
    (movePlayer ins t p).translation.z = t.translation.z ∧
    (movePlayer ins t p).rotation = t.rotation ∧
    (movePlayer ins t p).scale = t.scale := by
  unfold movePlayer
  by_cases h : (ins p.handle).has_mouse = 1 <;> simp [h]

/-- Witness for `move_players_mouse_only`: with the cursor flag set and all
key bits set, only translation.x and translation.y change. -/
theorem move_players_mouse_only_witness :
    ((fun _ : Nat =>
        ({ mouse := (3, 4), has_mouse := 1, keys := 31,
           padding := (0, 0, 0, 0, 0, 0) } : GameInput)) (Player.mk 0).handle).has_mouse
      = 1 ∧
    movePlayer
        (fun _ => { mouse := (3, 4), has_mouse := 1, keys := 31,
                    padding := (0, 0, 0, 0, 0, 0) })
        ⟨⟨0, 0, 9⟩, ⟨1, 2, 3, 4⟩, ⟨5, 5, 5⟩⟩ ⟨0⟩ =
      ⟨⟨3, 4, 9⟩, ⟨1, 2, 3, 4⟩, ⟨5, 5, 5⟩⟩ :=
  ⟨rfl,
    (move_players_mouse_only
      (fun _ => { mouse := (3, 4), has_mouse := 1, keys := 31,
                  padding := (0, 0, 0, 0, 0, 0) })
      ⟨⟨0, 0, 9⟩, ⟨1, 2, 3, 4⟩, ⟨5, 5, 5⟩⟩ ⟨0⟩).2.1 rfl⟩

end Stack
